import Mathlib

/-!
Verification of the admin-dashboard data layer of the `bzionu` repository.

The development shallowly embeds:
* the cache layer of `src/lib/cache` (re-exported through `src/lib/prisma.ts`):
  `cache.get` / `cache.set` / `cache.invalidatePattern`, `CACHE_KEYS`,
  `CACHE_TTL`, `getCachedQuery` and `invalidateDashboardCache`;
* the dashboard fetchers of `src/app/admin/_actions/activities-optimized.ts`:
  `getRecentActivitiesOptimized`, `getQuotesOptimized`, `getNewUsersOptimized`,
  `getNewsletterSubscribersOptimized`, `getFormSubmissionsOptimized` and
  `updateFormSubmissionStatus`;
* the authorization gate of `src/app/api/admin/dashboard-data/route.ts`.

Database tables are lists of records; Prisma `orderBy ... desc` is a stable
merge sort on the ordering key; `skip` / `take` are `List.drop` / `List.take`.
Each query wrapped in `withTimeout` may fail (timeout or database error); a
failure is a Boolean flag, and a `Promise.all` fails as soon as one of its
member queries fails.  Timestamps are `Nat` (epoch milliseconds), wall-clock
time for the cache is `Nat` (seconds).  JavaScript truthiness, which the cache
hit test `if (cached)` relies on, is modelled on a small `JSValue` type.
-/

namespace Bzionu

/-- JavaScript values, as far as truthiness and cache round-trips are
concerned.  `@upstash/redis` JSON-serialises on `set` and deserialises on
`get`, so the cache stores and returns logical values. -/
inductive JSValue where
  | null
  | undefined
  | bool (b : Bool)
  | num (n : Int)
  | str (s : String)
  | obj (tag : String)
deriving DecidableEq, Repr

/-- JavaScript truthiness: `null`, `undefined`, `false`, `0` and `""` are
falsy, everything else is truthy. -/
def jsTruthy : JSValue → Bool
  | .null => false
  | .undefined => false
  | .bool b => b
  | .num n => n != 0
  | .str s => s != ""
  | .obj _ => true

/-- JavaScript `a || b` on an optional string (`null`/`undefined` and `""`
are falsy). -/
def jsOrStr (s : Option String) (d : String) : String :=
  match s with
  | some v => if v == "" then d else v
  | none => d

/-- JavaScript `String.prototype.trim`: strip leading and trailing
whitespace. -/
def jsTrim (s : String) : String :=
  ⟨(((s.toList.dropWhile Char.isWhitespace).reverse).dropWhile Char.isWhitespace).reverse⟩

/-- Lexicographic comparison of strings by code point (the order JavaScript
`<`/`>` uses on strings), as a Boolean `a <= b`. -/
def charListLe : List Char → List Char → Bool
  | [], _ => true
  | _ :: _, [] => false
  | a :: as, b :: bs => if a == b then charListLe as bs else decide (a.toNat < b.toNat)

/-- `a <= b` on strings, by code point. -/
def strLe (a b : String) : Bool :=
  charListLe a.toList b.toList

/-- JavaScript `String.prototype.startsWith`. -/
def strStartsWith (s p : String) : Bool :=
  p.toList.isPrefixOf s.toList

/-- JavaScript `String.prototype.includes`. -/
def hasInfix (s sub : List Char) : Bool :=
  sub.isPrefixOf s ||
    (match s with
     | [] => false
     | _ :: rest => hasInfix rest sub)

/-- `s.includes(sub)` on strings. -/
def strIncludes (s sub : String) : Bool :=
  hasInfix s.toList sub.toList

/-- Redis glob-style pattern matching, as used by the `KEYS` command:
`*` matches any run of characters, `?` a single character, anything else
matches itself.  A pattern with no wildcard matches only the literal key. -/
def globMatch (p : List Char) (s : List Char) : Bool :=
  match p with
  | [] => s.isEmpty
  | '*' :: ps => s.tails.any (fun t => globMatch ps t)
  | '?' :: ps =>
    match s with
    | [] => false
    | _ :: cs => globMatch ps cs
  | q :: ps =>
    match s with
    | [] => false
    | c :: cs => (q == c) && globMatch ps cs

/-! ## Cache layer (`src/lib/cache`) -/

/-- One Redis entry: the stored value and its expiry instant.  `SETEX key ttl`
yields `expiresAt = now + ttl`; a plain `SET` (taken when `ttl` is falsy,
i.e. `0`) stores without expiry. -/
structure CacheEntry (α : Type) where
  value : α
  expiresAt : Option Nat
deriving DecidableEq, Repr

/-- The cache backend: current time (seconds) and the key/value store. -/
structure CacheState (α : Type) where
  now : Nat
  store : List (String × CacheEntry α)
deriving DecidableEq, Repr

/-- The empty cache at time `t`. -/
def CacheState.empty (α : Type) (t : Nat) : CacheState α := ⟨t, []⟩

/-- Move the backend clock to absolute time `t` (store unchanged). -/
def CacheState.atTime (st : CacheState α) (t : Nat) : CacheState α :=
  ⟨t, st.store⟩

/-- `cache.get(key)`: the stored value, or `null` when the key is absent or
its expiry has passed (Redis lazy expiration). -/
def cacheGet (st : CacheState α) (key : String) : Option α :=
  match st.store.find? (fun kv => kv.1 == key) with
  | some kv =>
    match kv.2.expiresAt with
    | some exp => if st.now < exp then some kv.2.value else none
    | none => some kv.2.value
  | none => none

/-- `cache.set(key, value, ttl)`: `if (ttl)` uses `SETEX` (expiry
`now + ttl`), otherwise a plain `SET` without expiry. -/
def cacheSet (st : CacheState α) (key : String) (v : α) (ttl : Nat) :
    CacheState α :=
  ⟨st.now,
   (key, ⟨v, if ttl == 0 then none else some (st.now + ttl)⟩) ::
     st.store.filter (fun kv => kv.1 != key)⟩

/-- `cache.invalidatePattern(pattern)`: `KEYS pattern` then `DEL` of every
match.  The pattern is passed verbatim to Redis glob matching. -/
def invalidatePattern (st : CacheState α) (pattern : String) : CacheState α :=
  ⟨st.now,
   st.store.filter (fun kv => !(globMatch pattern.toList kv.1.toList))⟩

/-- `invalidateDashboardCache(pattern?)` from `src/lib/cache`. -/
def invalidateDashboardCache (st : CacheState α) (pattern : Option String) :
    CacheState α :=
  match pattern with
  | none => invalidatePattern st "dashboard:*"
  | some p => invalidatePattern st p

/-- `CACHE_KEYS.dashboard.activities(offset, limit)`. -/
def CACHE_KEYS.dashboard.activities (offset limit : Nat) : String :=
  "dashboard:activities:" ++ toString offset ++ ":" ++ toString limit

/-- `CACHE_KEYS.dashboard.stats`. -/
def CACHE_KEYS.dashboard.stats : String := "dashboard:stats"

/-- `CACHE_KEYS.dashboard.quotes(offset, limit)` — note: no filter
parameter. -/
def CACHE_KEYS.dashboard.quotes (offset limit : Nat) : String :=
  "dashboard:quotes:" ++ toString offset ++ ":" ++ toString limit

/-- `CACHE_KEYS.dashboard.users(offset, limit)`. -/
def CACHE_KEYS.dashboard.users (offset limit : Nat) : String :=
  "dashboard:users:" ++ toString offset ++ ":" ++ toString limit

/-- `CACHE_KEYS.dashboard.newsletter(offset, limit)`. -/
def CACHE_KEYS.dashboard.newsletter (offset limit : Nat) : String :=
  "dashboard:newsletter:" ++ toString offset ++ ":" ++ toString limit

/-- `CACHE_KEYS.dashboard.forms(offset, limit)`. -/
def CACHE_KEYS.dashboard.forms (offset limit : Nat) : String :=
  "dashboard:forms:" ++ toString offset ++ ":" ++ toString limit

/-- `CACHE_TTL.dashboard.realtime` (seconds). -/
def CACHE_TTL.dashboard.realtime : Nat := 10

/-- `CACHE_TTL.dashboard.stats` (seconds). -/
def CACHE_TTL.dashboard.stats : Nat := 30

/-- `getCachedQuery(key, fetcher, ttl)`: `const cached = await
cache.get(key); if (cached) return cached;` then fetch, `cache.set`, return.
The hit test is JavaScript truthiness of the value-or-null, given by
`truthy`.  Returns the result, whether the fetcher was invoked, and the new
cache state. -/
def getCachedQuery (truthy : α → Bool) (st : CacheState α) (key : String)
    (fetcher : α) (ttl : Nat) : α × Bool × CacheState α :=
  match cacheGet st key with
  | some v =>
    if truthy v then (v, false, st)
    else (fetcher, true, cacheSet st key fetcher ttl)
  | none => (fetcher, true, cacheSet st key fetcher ttl)

/-! ## Data model (Prisma tables, fields used by the dashboard code) -/

/-- A `User` row. -/
structure User where
  id : Nat
  email : String
  firstName : Option String
  lastName : Option String
  companyName : Option String
  phone : Option String
  createdAt : Nat
  lastLogin : Option Nat
  emailVerified : Bool
  isNewUser : Bool
  role : String
deriving DecidableEq, Repr

/-- A `Quote` row. -/
structure Quote where
  id : String
  reference : String
  status : String
  total : Int
  createdAt : Nat
  updatedAt : Nat
  userId : Option Nat
  lineIds : List String
deriving DecidableEq, Repr

/-- A `FormSubmission` row. -/
structure FormSubmission where
  id : String
  formType : String
  data : String
  submittedAt : Nat
  status : String
  ipAddress : Option String
deriving DecidableEq, Repr

/-- A `NewsletterSubscriber` row. -/
structure NewsletterSubscriber where
  id : String
  email : String
  status : String
  subscribedAt : Nat
  unsubscribedAt : Option Nat
deriving DecidableEq, Repr

/-- An `AnalyticsEvent` row. -/
structure AnalyticsEvent where
  id : String
  eventType : String
  timestamp : Nat
deriving DecidableEq, Repr

/-- The database: the five tables the dashboard reads. -/
structure DB where
  users : List User
  quotes : List Quote
  forms : List FormSubmission
  newsletters : List NewsletterSubscriber
  analytics : List AnalyticsEvent
deriving DecidableEq, Repr

/-- The empty database. -/
def DB.empty : DB := ⟨[], [], [], [], []⟩

/-- Prisma `orderBy: { key: desc }`: stable sort, newest first. -/
def sortByDesc (key : α → Nat) (l : List α) : List α :=
  l.insertionSort (fun a b => key b ≤ key a)

/-! ## Paginated results and activity events -/

/-- `PaginatedResult<T>` from `activities-optimized.ts`. -/
structure PaginatedResult (α : Type) where
  data : List α
  total : Nat
  offset : Nat
  limit : Nat
  hasMore : Bool
deriving DecidableEq, Repr

/-- The value every fetcher returns from its `catch` branch:
`{ data: [], total: 0, offset, limit, hasMore: false }`. -/
def sentinelResult (α : Type) (offset limit : Nat) : PaginatedResult α :=
  ⟨[], 0, offset, limit, false⟩

/-- `ActivityEvent.actor`. -/
structure Actor where
  id : Option String
  email : String
  name : Option String
deriving DecidableEq, Repr

/-- `ActivityEvent.data`. -/
structure ActivityData where
  reference : Option String
  amount : Option Int
  items : Option Nat
  formType : Option String
  status : Option String
  message : Option String
deriving DecidableEq, Repr

/-- The empty `data` bag. -/
def ActivityData.none' : ActivityData := ⟨none, none, none, none, none, none⟩

/-- `ActivityEvent` from `activities-optimized.ts`. -/
structure ActivityEvent where
  id : String
  type : String
  timestamp : Nat
  actor : Actor
  data : ActivityData
  status : String
deriving DecidableEq, Repr

/-- The user-registration mapper inside `getRecentActivitiesOptimized`. -/
def mapUserActivity (u : User) : ActivityEvent :=
  { id := "user_" ++ toString u.id
    type := "user_registration"
    timestamp := u.createdAt
    actor :=
      { id := some (toString u.id)
        email := u.email
        name := some (jsTrim (jsOrStr u.firstName "" ++ " " ++ jsOrStr u.lastName "")) }
    data :=
      { ActivityData.none' with
        message := some ("New registration from " ++ jsOrStr u.firstName "User") }
    status := if u.emailVerified then "verified" else "pending_verification" }

/-- A row of the raw quote query (`Quote LEFT JOIN User`). -/
structure QuoteRow where
  id : String
  reference : String
  status : String
  total : Int
  createdAt : Nat
  userId : Option Nat
  email : Option String
  firstName : Option String
  lastName : Option String
deriving DecidableEq, Repr

/-- `LEFT JOIN "User" u ON q."userId" = u.id`: user columns are `NULL` when
there is no matching user. -/
def quoteJoinUser (db : DB) (q : Quote) : QuoteRow :=
  match db.users.find? (fun u => q.userId == some u.id) with
  | some u => ⟨q.id, q.reference, q.status, q.total, q.createdAt, q.userId,
      some u.email, u.firstName, u.lastName⟩
  | none => ⟨q.id, q.reference, q.status, q.total, q.createdAt, q.userId,
      none, none, none⟩

/-- The quote mapper inside `getRecentActivitiesOptimized`. -/
def mapQuoteActivity (q : QuoteRow) : ActivityEvent :=
  { id := q.id
    type := "quote_request"
    timestamp := q.createdAt
    actor :=
      { id := none
        email := jsOrStr q.email "unknown"
        name := some (match q.firstName with
          | some f =>
            if f == "" then "Unknown"
            else jsTrim (f ++ " " ++ jsOrStr q.lastName "")
          | none => "Unknown") }
    data :=
      { ActivityData.none' with
        reference := some q.reference
        amount := some q.total
        status := some q.status }
    status := q.status }

/-- The JavaScript sort comparator
`(a, b) => b.timestamp.getTime() - a.timestamp.getTime()` as a total
preorder: `a` may stay before `b` iff `a.timestamp >= b.timestamp`
(`Array.prototype.sort` is stable, so ties keep their original order;
there is no secondary key). -/
def activityDescOrder (a b : ActivityEvent) : Prop :=
  b.timestamp ≤ a.timestamp

instance : DecidableRel activityDescOrder :=
  fun a b => Nat.decLe b.timestamp a.timestamp

/-! ## The aggregator (`getRecentActivitiesOptimized`) -/

/-- Which of the seven database queries issued by
`getRecentActivitiesOptimized` fail (timeout or error).  The five count
queries sit in one nested `Promise.all`, itself one member of the outer
`Promise.all` together with the user `findMany` and the raw quote query. -/
structure QueryFailures where
  userFind : Bool
  quoteRaw : Bool
  userCount : Bool
  quoteCount : Bool
  formCount : Bool
  newsletterCount : Bool
  checkoutCount : Bool
deriving DecidableEq, Repr

/-- `Promise.all` rejects as soon as one member query rejects. -/
def QueryFailures.any (f : QueryFailures) : Bool :=
  f.userFind || f.quoteRaw || f.userCount || f.quoteCount || f.formCount ||
    f.newsletterCount || f.checkoutCount

/-- No query fails. -/
def QueryFailures.noneF : QueryFailures :=
  ⟨false, false, false, false, false, false, false⟩

/-- All seven queries fail. -/
def QueryFailures.allF : QueryFailures :=
  ⟨true, true, true, true, true, true, true⟩

/-- `prisma.analyticsEvent.count({ where: { eventType:
'checkout_completed' } })`. -/
def checkoutCount (db : DB) : Nat :=
  (db.analytics.filter (fun e => e.eventType == "checkout_completed")).length

/-- The total the aggregator reports: the sum of the five per-source
counts. -/
def activitiesTotal (db : DB) : Nat :=
  db.users.length + db.quotes.length + db.forms.length +
    db.newsletters.length + checkoutCount db

/-- The body of the fetcher closure of `getRecentActivitiesOptimized`
(the function passed to `getCachedQuery`): on any query failure the `catch`
branch returns the sentinel; otherwise user registrations
(`findMany take: limit, skip: offset, orderBy createdAt desc`) and quotes
(raw SQL `ORDER BY createdAt DESC LIMIT limit`, left-joined with users) are
mapped, concatenated, sorted by the timestamp-only comparator and cut with
`slice(0, limit)`. -/
def activitiesFetch (db : DB) (f : QueryFailures) (offset limit : Nat) :
    PaginatedResult ActivityEvent :=
  if f.any then sentinelResult ActivityEvent offset limit
  else
    let userActivities := ((sortByDesc User.createdAt db.users).drop offset).take limit
    let businessActivities :=
      ((sortByDesc Quote.createdAt db.quotes).take limit).map (quoteJoinUser db)
    let activities :=
      userActivities.map mapUserActivity ++ businessActivities.map mapQuoteActivity
    let sorted := (activities.insertionSort activityDescOrder).take limit
    let total := activitiesTotal db
    ⟨sorted, total, offset, limit, decide (offset + limit < total)⟩

/-- `getRecentActivitiesOptimized(offset, limit)`: the fetcher closure
wrapped in `getCachedQuery` under `CACHE_KEYS.dashboard.activities` with the
real-time TTL.  A `PaginatedResult` object is always truthy in
JavaScript. -/
def getRecentActivitiesOptimized (st : CacheState (PaginatedResult ActivityEvent))
    (db : DB) (f : QueryFailures) (offset limit : Nat) :
    PaginatedResult ActivityEvent × Bool × CacheState (PaginatedResult ActivityEvent) :=
  getCachedQuery (fun _ => true) st (CACHE_KEYS.dashboard.activities offset limit)
    (activitiesFetch db f offset limit) CACHE_TTL.dashboard.realtime

/-! ## Per-entity fetchers -/

/-- The user sub-select of the quote page query. -/
structure QuoteUserView where
  email : String
  firstName : Option String
  lastName : Option String
  companyName : Option String
deriving DecidableEq, Repr

/-- One row of the `getQuotesOptimized` page query (the `select` shape). -/
structure QuoteView where
  id : String
  reference : String
  status : String
  total : Int
  createdAt : Nat
  updatedAt : Nat
  user : Option QuoteUserView
  lineIds : List String
deriving DecidableEq, Repr

/-- The `select` projection of the quote page query, with the `user`
relation resolved. -/
def quoteToView (db : DB) (q : Quote) : QuoteView :=
  ⟨q.id, q.reference, q.status, q.total, q.createdAt, q.updatedAt,
   (db.users.find? (fun u => q.userId == some u.id)).map
     (fun u => ⟨u.email, u.firstName, u.lastName, u.companyName⟩),
   q.lineIds⟩

/-- `status ? { status } : undefined`: the `where` clause is only applied
when the `status` argument is truthy (a missing or empty string imposes no
filter). -/
def quotesWhere (status : Option String) (quotes : List Quote) : List Quote :=
  match status with
  | some s => if s == "" then quotes else quotes.filter (fun q => q.status == s)
  | none => quotes

/-- The fetcher closure of `getQuotesOptimized(offset, limit, status)`:
page query (`findMany` with optional status filter, `skip`/`take`, newest
first) and count query run in one `Promise.all`; on any failure the `catch`
branch returns the sentinel. -/
def quotesFetch (db : DB) (failData failCount : Bool) (offset limit : Nat)
    (status : Option String) : PaginatedResult QuoteView :=
  if failData || failCount then sentinelResult QuoteView offset limit
  else
    let filtered := quotesWhere status db.quotes
    let quotes :=
      (((sortByDesc Quote.createdAt filtered).drop offset).take limit).map (quoteToView db)
    let total := filtered.length
    ⟨quotes, total, offset, limit, decide (offset + limit < total)⟩

/-- `getQuotesOptimized(offset, limit, status)`: the fetcher wrapped in
`getCachedQuery` under `CACHE_KEYS.dashboard.quotes(offset, limit)` — the
cache key does not mention `status`. -/
def getQuotesOptimized (st : CacheState (PaginatedResult QuoteView)) (db : DB)
    (failData failCount : Bool) (offset limit : Nat) (status : Option String) :
    PaginatedResult QuoteView × Bool × CacheState (PaginatedResult QuoteView) :=
  getCachedQuery (fun _ => true) st (CACHE_KEYS.dashboard.quotes offset limit)
    (quotesFetch db failData failCount offset limit status)
    CACHE_TTL.dashboard.realtime

/-- One row of the `getNewUsersOptimized` page query (the `select`
shape). -/
structure UserView where
  id : Nat
  email : String
  firstName : Option String
  lastName : Option String
  companyName : Option String
  phone : Option String
  createdAt : Nat
  lastLogin : Option Nat
  emailVerified : Bool
  isNewUser : Bool
deriving DecidableEq, Repr

/-- The `select` projection of the users page query. -/
def userToView (u : User) : UserView :=
  ⟨u.id, u.email, u.firstName, u.lastName, u.companyName, u.phone,
   u.createdAt, u.lastLogin, u.emailVerified, u.isNewUser⟩

/-- The fetcher closure of `getNewUsersOptimized(offset, limit)`: customers
only (`where: { role: 'customer' }`), newest first. -/
def usersFetch (db : DB) (failData failCount : Bool) (offset limit : Nat) :
    PaginatedResult UserView :=
  if failData || failCount then sentinelResult UserView offset limit
  else
    let customers := db.users.filter (fun u => u.role == "customer")
    let users :=
      (((sortByDesc User.createdAt customers).drop offset).take limit).map userToView
    let total := customers.length
    ⟨users, total, offset, limit, decide (offset + limit < total)⟩

/-- `getNewUsersOptimized(offset, limit)` wrapped in `getCachedQuery` under
`CACHE_KEYS.dashboard.users(offset, limit)`. -/
def getNewUsersOptimized (st : CacheState (PaginatedResult UserView)) (db : DB)
    (failData failCount : Bool) (offset limit : Nat) :
    PaginatedResult UserView × Bool × CacheState (PaginatedResult UserView) :=
  getCachedQuery (fun _ => true) st (CACHE_KEYS.dashboard.users offset limit)
    (usersFetch db failData failCount offset limit) CACHE_TTL.dashboard.realtime

/-- One row of the `getNewsletterSubscribersOptimized` page query. -/
structure SubscriberView where
  id : String
  email : String
  status : String
  subscribedAt : Nat
  unsubscribedAt : Option Nat
deriving DecidableEq, Repr

/-- The `select` projection of the newsletter page query. -/
def subscriberToView (s : NewsletterSubscriber) : SubscriberView :=
  ⟨s.id, s.email, s.status, s.subscribedAt, s.unsubscribedAt⟩

/-- The fetcher closure of `getNewsletterSubscribersOptimized(offset,
limit)`: all subscribers, most recently subscribed first. -/
def newsletterFetch (db : DB) (failData failCount : Bool) (offset limit : Nat) :
    PaginatedResult SubscriberView :=
  if failData || failCount then sentinelResult SubscriberView offset limit
  else
    let subscribers :=
      (((sortByDesc NewsletterSubscriber.subscribedAt db.newsletters).drop offset).take limit).map
        subscriberToView
    let total := db.newsletters.length
    ⟨subscribers, total, offset, limit, decide (offset + limit < total)⟩

/-- `getNewsletterSubscribersOptimized(offset, limit)` wrapped in
`getCachedQuery` under `CACHE_KEYS.dashboard.newsletter(offset, limit)`. -/
def getNewsletterSubscribersOptimized (st : CacheState (PaginatedResult SubscriberView))
    (db : DB) (failData failCount : Bool) (offset limit : Nat) :
    PaginatedResult SubscriberView × Bool × CacheState (PaginatedResult SubscriberView) :=
  getCachedQuery (fun _ => true) st (CACHE_KEYS.dashboard.newsletter offset limit)
    (newsletterFetch db failData failCount offset limit) CACHE_TTL.dashboard.realtime

/-- One row of the `getFormSubmissionsOptimized` page query. -/
structure FormView where
  id : String
  formType : String
  data : String
  submittedAt : Nat
  status : String
  ipAddress : Option String
deriving DecidableEq, Repr

/-- The `select` projection of the form-submissions page query. -/
def formToView (f : FormSubmission) : FormView :=
  ⟨f.id, f.formType, f.data, f.submittedAt, f.status, f.ipAddress⟩

/-- The fetcher closure of `getFormSubmissionsOptimized(offset, limit)`:
all submissions, most recently submitted first. -/
def formsFetch (db : DB) (failData failCount : Bool) (offset limit : Nat) :
    PaginatedResult FormView :=
  if failData || failCount then sentinelResult FormView offset limit
  else
    let submissions :=
      (((sortByDesc FormSubmission.submittedAt db.forms).drop offset).take limit).map formToView
    let total := db.forms.length
    ⟨submissions, total, offset, limit, decide (offset + limit < total)⟩

/-- `getFormSubmissionsOptimized(offset, limit)` wrapped in
`getCachedQuery` under `CACHE_KEYS.dashboard.forms(offset, limit)`. -/
def getFormSubmissionsOptimized (st : CacheState (PaginatedResult FormView))
    (db : DB) (failData failCount : Bool) (offset limit : Nat) :
    PaginatedResult FormView × Bool × CacheState (PaginatedResult FormView) :=
  getCachedQuery (fun _ => true) st (CACHE_KEYS.dashboard.forms offset limit)
    (formsFetch db failData failCount offset limit) CACHE_TTL.dashboard.realtime

/-! ## Mutation (`updateFormSubmissionStatus`) -/

/-- `updateFormSubmissionStatus(id, status)`: `prisma.formSubmission.update`
(throws — `none` — when the query fails or no row has this id), then
`invalidateDashboardCache('dashboard:forms')`.  Returns the new database and
cache state on success. -/
def updateFormSubmissionStatus (db : DB) (st : CacheState α) (id status : String)
    (failUpdate : Bool) : Option (DB × CacheState α) :=
  if failUpdate || !(db.forms.any (fun f => f.id == id)) then none
  else
    let db' : DB :=
      { db with
        forms := db.forms.map (fun f =>
          if f.id == id then { f with status := status } else f) }
    some (db', invalidateDashboardCache st (some "dashboard:forms"))

/-! ## Authorization gate of `GET /api/admin/dashboard-data` -/

/-- The authorization check of the route: the request is rejected with 401
iff the `authorization` header is falsy or does not start with `"Bearer "`,
and the request URL hostname contains neither `"localhost"` nor
`"127.0.0.1"`.  Only when this is `true` does the handler return before
invoking any data-fetching function. -/
def dashboardAuthRejects (authHeader : Option String) (hostname : String) : Bool :=
  let missingBearer :=
    match authHeader with
    | none => true
    | some h => if h == "" then true else !(strStartsWith h "Bearer ")
  missingBearer && !(strIncludes hostname "localhost") &&
    !(strIncludes hostname "127.0.0.1")

/-! ## Spec-side definitions and the pagination invariant -/

/-- Modelled from the spec: the ordering the specification prescribes for
the merged feed — descending by `timestamp`, ties broken by `id`. -/
def specTieOrder (a b : ActivityEvent) : Prop :=
  b.timestamp < a.timestamp ∨
    (a.timestamp = b.timestamp ∧ strLe a.id b.id = true)

instance : DecidableRel specTieOrder :=
  fun a b =>
    inferInstanceAs (Decidable (b.timestamp < a.timestamp ∨
      (a.timestamp = b.timestamp ∧ strLe a.id b.id = true)))

/-- Modelled from the spec: the feed the specification describes, over the
already-mapped per-source events — concatenate, sort descending by
`timestamp` with ties broken by `id`, slice the half-open window
`[offset, offset + limit)`. -/
def specClaimFeed (events : List ActivityEvent) (offset limit : Nat) :
    List ActivityEvent :=
  ((events.insertionSort specTieOrder).drop offset).take limit

/-- The `PaginatedResult` invariant the specification states:
`hasMore == (offset + limit < total)` and `data.length <= limit`. -/
@[reducible] def pagOk (r : PaginatedResult α) : Prop :=
  r.hasMore = decide (r.offset + r.limit < r.total) ∧ r.data.length ≤ r.limit

/-! ## Concrete records used by witnesses and counterexamples -/

/-- A sample user (registered at time 100). -/
def u1 : User :=
  ⟨1, "ann@example.com", some "Ann", none, none, none, 100, none, true, true,
   "customer"⟩

/-- A sample quote (created at time 200, owned by `u1`). -/
def q1 : Quote := ⟨"q1", "Q-1", "pending", 5, 200, 200, some 1, []⟩

/-- A database with one user and one quote. -/
def dbUserQuote : DB := ⟨[u1], [q1], [], [], []⟩

/-- A sample form submission. -/
def f1 : FormSubmission := ⟨"f1", "contact", "{}", 100, "new", none⟩

/-- A database whose only rows live in the `FormSubmission` table. -/
def dbFormsOnly : DB := ⟨[], [], [f1], [], []⟩

/-- A pending quote, created at time 200. -/
def qa : Quote := ⟨"qa", "Q-A", "pending", 10, 200, 200, none, []⟩

/-- An approved quote, created at time 100. -/
def qb : Quote := ⟨"qb", "Q-B", "approved", 20, 100, 100, none, []⟩

/-- A database with one pending and one approved quote. -/
def dbTwoQuotes : DB := ⟨[], [qa, qb], [], [], []⟩

/-- Only the raw quote source query fails (e.g. times out). -/
def failQuoteRaw : QueryFailures :=
  ⟨false, true, false, false, false, false, false⟩

/-- A cache holding a forms page and a quotes page, both unexpired. -/
def formsCacheState : CacheState JSValue :=
  ⟨0, [("dashboard:forms:0:20", ⟨.str "staleForms", some 10⟩),
       ("dashboard:quotes:0:20", ⟨.str "cachedQuotes", some 10⟩)]⟩

/-! ## Helper lemmas -/

/-- Ordering instances for the timestamp comparator. -/
instance : IsTotal ActivityEvent activityDescOrder :=
  ⟨fun a b => Nat.le_total b.timestamp a.timestamp⟩

instance : IsTrans ActivityEvent activityDescOrder :=
  ⟨fun _ _ _ hab hbc => Nat.le_trans hbc hab⟩

/-- When any of the seven queries fails, the aggregator's `catch` branch
returns the sentinel. -/
lemma activitiesFetch_of_fail (db : DB) (f : QueryFailures) (offset limit : Nat)
    (h : f.any = true) :
    activitiesFetch db f offset limit = sentinelResult ActivityEvent offset limit := by
  simp [activitiesFetch, h]

/-- When no query fails, the aggregator's result written out in full. -/
lemma activitiesFetch_of_not_fail (db : DB) (f : QueryFailures) (offset limit : Nat)
    (h : f.any = false) :
    activitiesFetch db f offset limit =
      ⟨(((((sortByDesc User.createdAt db.users).drop offset).take limit).map mapUserActivity ++
          (((sortByDesc Quote.createdAt db.quotes).take limit).map (quoteJoinUser db)).map
            mapQuoteActivity).insertionSort activityDescOrder).take limit,
        activitiesTotal db, offset, limit,
        decide (offset + limit < activitiesTotal db)⟩ := by
  simp [activitiesFetch, h]

/-- The sentinel satisfies the pagination invariant. -/
lemma pagOk_sentinelResult (α : Type) (offset limit : Nat) :
    pagOk (sentinelResult α offset limit) := by
  refine ⟨?_, ?_⟩ <;> simp [sentinelResult]

/-- The aggregator satisfies the pagination invariant on both paths. -/
lemma pagOk_activitiesFetch (db : DB) (f : QueryFailures) (offset limit : Nat) :
    pagOk (activitiesFetch db f offset limit) := by
  by_cases h : f.any = true
  · rw [activitiesFetch_of_fail db f offset limit h]
    exact pagOk_sentinelResult _ _ _
  · rw [Bool.not_eq_true] at h
    rw [activitiesFetch_of_not_fail db f offset limit h]
    refine ⟨rfl, ?_⟩
    rw [List.length_take]
    exact inf_le_left

/-- `getQuotesOptimized`'s fetcher satisfies the pagination invariant. -/
lemma pagOk_quotesFetch (db : DB) (fd fc : Bool) (offset limit : Nat)
    (status : Option String) :
    pagOk (quotesFetch db fd fc offset limit status) := by
  cases fd <;> cases fc <;>
    first
      | exact pagOk_sentinelResult _ _ _
      | refine ⟨rfl, ?_⟩
        show ((((sortByDesc Quote.createdAt (quotesWhere status db.quotes)).drop offset).take
            limit).map (quoteToView db)).length ≤ limit
        rw [List.length_map, List.length_take]
        exact inf_le_left

/-- `getNewUsersOptimized`'s fetcher satisfies the pagination invariant. -/
lemma pagOk_usersFetch (db : DB) (fd fc : Bool) (offset limit : Nat) :
    pagOk (usersFetch db fd fc offset limit) := by
  cases fd <;> cases fc <;>
    first
      | exact pagOk_sentinelResult _ _ _
      | refine ⟨rfl, ?_⟩
        show ((((sortByDesc User.createdAt
            (db.users.filter (fun u => u.role == "customer"))).drop offset).take
            limit).map userToView).length ≤ limit
        rw [List.length_map, List.length_take]
        exact inf_le_left

/-- `getNewsletterSubscribersOptimized`'s fetcher satisfies the pagination
invariant. -/
lemma pagOk_newsletterFetch (db : DB) (fd fc : Bool) (offset limit : Nat) :
    pagOk (newsletterFetch db fd fc offset limit) := by
  cases fd <;> cases fc <;>
    first
      | exact pagOk_sentinelResult _ _ _
      | refine ⟨rfl, ?_⟩
        show ((((sortByDesc NewsletterSubscriber.subscribedAt db.newsletters).drop offset).take
            limit).map subscriberToView).length ≤ limit
        rw [List.length_map, List.length_take]
        exact inf_le_left

/-- `getFormSubmissionsOptimized`'s fetcher satisfies the pagination
invariant. -/
lemma pagOk_formsFetch (db : DB) (fd fc : Bool) (offset limit : Nat) :
    pagOk (formsFetch db fd fc offset limit) := by
  cases fd <;> cases fc <;>
    first
      | exact pagOk_sentinelResult _ _ _
      | refine ⟨rfl, ?_⟩
        show ((((sortByDesc FormSubmission.submittedAt db.forms).drop offset).take
            limit).map formToView).length ≤ limit
        rw [List.length_map, List.length_take]
        exact inf_le_left

/-! ## Claim C1 -/

/-- C1 counterexample.  The claim says that when exactly one source query
throws, `getRecentActivitiesOptimized` still returns the events of the
other, successful sources.  With one user and one quote in the database and
only the raw quote query failing, the call returns no events at all — the
successful user source's event `user_1` (present in the no-failure run) is
lost. -/
theorem C1_counterexample :
    (activitiesFetch dbUserQuote failQuoteRaw 0 20).data = [] ∧
    (activitiesFetch dbUserQuote QueryFailures.noneF 0 20).data.map ActivityEvent.id =
      ["q1", "user_1"] := by decide

/-- C1 amended: if any of the queries issued by
`getRecentActivitiesOptimized` fails, the call still resolves with a
non-error `PaginatedResult`, but it is the sentinel
`{ data: [], total: 0, offset, limit, hasMore: false }` — every source is
treated as empty for this call, not only the failed one. -/
theorem C1_failure_returns_sentinel (db : DB) (f : QueryFailures)
    (offset limit t : Nat) (h : f.any = true) :
    (getRecentActivitiesOptimized (CacheState.empty (PaginatedResult ActivityEvent) t)
        db f offset limit).1 = sentinelResult ActivityEvent offset limit := by
  simp [getRecentActivitiesOptimized, getCachedQuery, cacheGet, CacheState.empty,
    activitiesFetch_of_fail db f offset limit h]

/-- C1 witness: the amended theorem at a concrete input. -/
theorem C1_failure_returns_sentinel_witness :
    QueryFailures.any failQuoteRaw = true ∧
    (getRecentActivitiesOptimized (CacheState.empty (PaginatedResult ActivityEvent) 0)
        dbUserQuote failQuoteRaw 0 20).1 = sentinelResult ActivityEvent 0 20 :=
  ⟨by decide, C1_failure_returns_sentinel dbUserQuote failQuoteRaw 0 20 0 (by decide)⟩

/-! ## Claim C2 -/

/-- C2: the claim says that after `updateFormSubmissionStatus` (which calls
`invalidateDashboardCache('dashboard:forms')`) every cache entry whose key
starts with `dashboard:forms` is removed and recomputes.  In fact the
pattern `dashboard:forms` reaches Redis `KEYS` with no wildcard, so it
matches only the literal key `dashboard:forms`: the entry
`dashboard:forms:0:20` survives the mutation and a subsequent
`getCachedQuery` under that key still serves it without recomputing. -/
theorem C2_code_divergence :
    (updateFormSubmissionStatus dbFormsOnly formsCacheState "f1" "read" false).map
        (fun r => (cacheGet r.2 "dashboard:forms:0:20",
                   cacheGet r.2 "dashboard:quotes:0:20")) =
      some (some (JSValue.str "staleForms"), some (JSValue.str "cachedQuotes")) ∧
    (getCachedQuery jsTruthy
        (invalidateDashboardCache formsCacheState (some "dashboard:forms"))
        "dashboard:forms:0:20" (JSValue.str "fresh") 10).2.1 = false := by decide

/-! ## Claim C3 -/

/-- C3 counterexample.  The claim describes the feed as the concatenation
of the per-source mapped events, sorted descending by timestamp with ties
broken by id, sliced to `[offset, offset+limit)`.  With one user and one
quote (the other three sources empty) at `offset = 1, limit = 1`, that
description yields the user event, while the code returns the quote event:
the code applies `offset` only inside the user query and slices `[0,
limit)` after the merge. -/
theorem C3_counterexample :
    specClaimFeed
        ((dbUserQuote.users.map mapUserActivity) ++
          ((dbUserQuote.quotes.map (quoteJoinUser dbUserQuote)).map mapQuoteActivity)) 1 1 ≠
      (activitiesFetch dbUserQuote QueryFailures.noneF 1 1).data := by decide

/-- C3 amended: for a fixed set of source rows (and no query failure) the
feed is deterministic, but it is computed as: user rows sorted newest
first with `skip offset, take limit` applied in the user query, mapped;
concatenated with the `limit` newest quote rows (no offset), left-joined
and mapped; stably sorted descending by timestamp only (no id tie-break);
then truncated to the first `limit` elements — `[0, limit)`, not
`[offset, offset+limit)`.  Form-submission, newsletter and checkout rows
never contribute events.  The returned feed is sorted descending by
timestamp. -/
theorem C3_amended_feed (db : DB) (offset limit : Nat) :
    (activitiesFetch db QueryFailures.noneF offset limit).data =
      (((((sortByDesc User.createdAt db.users).drop offset).take limit).map mapUserActivity ++
        (((sortByDesc Quote.createdAt db.quotes).take limit).map (quoteJoinUser db)).map
          mapQuoteActivity).insertionSort activityDescOrder).take limit ∧
    List.Sorted activityDescOrder (activitiesFetch db QueryFailures.noneF offset limit).data := by
  rw [activitiesFetch_of_not_fail db QueryFailures.noneF offset limit rfl]
  refine ⟨rfl, ?_⟩
  exact List.Pairwise.sublist (List.take_sublist _ _)
    (List.sorted_insertionSort activityDescOrder _)

/-! ## Claim C4 -/

/-- C4: the claim says `data.length == min(limit, total - offset)` whenever
`offset < total`.  With a single form submission (all other tables empty),
`offset = 0 < total = 1`, the code returns `data = []` (length `0`) while
`min(limit, total - offset) = 1`: the three sources that are only counted
(forms, newsletter, checkouts) never contribute fetched rows. -/
theorem C4_code_divergence :
    (activitiesFetch dbFormsOnly QueryFailures.noneF 0 20).data.length = 0 ∧
    (activitiesFetch dbFormsOnly QueryFailures.noneF 0 20).total = 1 ∧
    min 20 ((activitiesFetch dbFormsOnly QueryFailures.noneF 0 20).total - 0) = 1 := by
  decide

/-! ## Claim C5 -/

/-- C5: the claim says cache keys are a pure function of entity, offset,
limit AND filter, so requests differing in the status filter never collide.
In fact `CACHE_KEYS.dashboard.quotes(offset, limit)` ignores the status
argument: a call filtered to `pending` (total 1) and a subsequent
unfiltered call (true total 2) share the key `dashboard:quotes:0:20`, and
the unfiltered call serves the filtered cached result without
recomputing. -/
theorem C5_code_divergence :
    CACHE_KEYS.dashboard.quotes 0 20 = "dashboard:quotes:0:20" ∧
    (let c1 := getQuotesOptimized (CacheState.empty (PaginatedResult QuoteView) 0)
        dbTwoQuotes false false 0 20 (some "pending")
     let c2 := getQuotesOptimized c1.2.2 dbTwoQuotes false false 0 20 none
     c2.2.1 = false ∧ c2.1.total = 1) ∧
    (quotesFetch dbTwoQuotes false false 0 20 none).total = 2 := by decide

/-! ## Claim C6 -/

/-- C6: every `PaginatedResult` produced by any of the five fetchers, on
the success path and on the error path alike, satisfies
`hasMore == (offset + limit < total)` and `data.length <= limit`. -/
theorem C6_pagination_invariant (db : DB) (f : QueryFailures) (fd fc : Bool)
    (offset limit : Nat) (status : Option String) :
    pagOk (activitiesFetch db f offset limit) ∧
    pagOk (quotesFetch db fd fc offset limit status) ∧
    pagOk (usersFetch db fd fc offset limit) ∧
    pagOk (newsletterFetch db fd fc offset limit) ∧
    pagOk (formsFetch db fd fc offset limit) :=
  ⟨pagOk_activitiesFetch db f offset limit,
   pagOk_quotesFetch db fd fc offset limit status,
   pagOk_usersFetch db fd fc offset limit,
   pagOk_newsletterFetch db fd fc offset limit,
   pagOk_formsFetch db fd fc offset limit⟩

/-! ## Claim C7 -/

/-- C7: the claim says every GET to the dashboard-data endpoint lacking a
valid elevated-privilege credential is rejected before any data fetch,
regardless of hostname or of an arbitrary Bearer header.  The gate accepts
any header that merely starts with `"Bearer "` (no validation), and skips
the check entirely when the hostname contains `localhost` or `127.0.0.1`;
it does reject a credential-free request on an ordinary hostname. -/
theorem C7_code_divergence :
    dashboardAuthRejects (some "Bearer not-a-valid-token") "bzionu.example.com" = false ∧
    dashboardAuthRejects none "localhost" = false ∧
    dashboardAuthRejects none "app.127.0.0.1.nip.io" = false ∧
    dashboardAuthRejects (some "") "example.com" = true := by decide

/-! ## Claim C8 -/

/-- C8 counterexample.  The claim says that for every key, ttl and compute
function, two `getCachedQuery` calls within `ttl` seconds invoke the
compute function exactly once, and a call after `ttl` seconds recomputes.
Both halves fail: a computed value of `0` is falsy, so the second call 5
seconds after the first (ttl 10) recomputes; and with `ttl = 0` the value
is stored by plain `SET` without expiry, so a call 1000 seconds later does
not recompute. -/
theorem C8_counterexample :
    (let r1 := getCachedQuery jsTruthy (CacheState.empty JSValue 0) "k" (JSValue.num 0) 10
     let r2 := getCachedQuery jsTruthy (r1.2.2.atTime 5) "k" (JSValue.num 0) 10
     r1.2.1 = true ∧ r2.2.1 = true) ∧
    (let s1 := getCachedQuery jsTruthy (CacheState.empty JSValue 0) "k" (JSValue.num 1) 0
     let s3 := getCachedQuery jsTruthy (s1.2.2.atTime 1000) "k" (JSValue.num 1) 0
     s3.2.1 = false) := by decide

/-- C8 amended: for a positive `ttl` and a compute function whose value is
truthy, a first call on a cold cache computes and stores; a second call
before the expiry instant returns the stored value without recomputing;
and a third call at or after the expiry instant computes again. -/
theorem C8_cache_idempotence (key : String) (v : JSValue) (ttl t0 t1 t2 : Nat)
    (htr : jsTruthy v = true) (hpos : 0 < ttl) (h1 : t1 < t0 + ttl)
    (h2 : t0 + ttl ≤ t2) :
    let r1 := getCachedQuery jsTruthy (CacheState.empty JSValue t0) key v ttl
    let r2 := getCachedQuery jsTruthy (r1.2.2.atTime t1) key v ttl
    let r3 := getCachedQuery jsTruthy (r2.2.2.atTime t2) key v ttl
    r1.2.1 = true ∧ r2.2.1 = false ∧ r2.1 = v ∧ r3.2.1 = true := by
  have hne : ttl ≠ 0 := Nat.pos_iff_ne_zero.mp hpos
  have e1 : getCachedQuery jsTruthy (CacheState.empty JSValue t0) key v ttl =
      (v, true, ⟨t0, [(key, ⟨v, some (t0 + ttl)⟩)]⟩) := by
    simp [getCachedQuery, cacheGet, cacheSet, CacheState.empty, hne]
  have e2 : getCachedQuery jsTruthy
      ((⟨t0, [(key, ⟨v, some (t0 + ttl)⟩)]⟩ : CacheState JSValue).atTime t1) key v ttl =
      (v, false, ⟨t1, [(key, ⟨v, some (t0 + ttl)⟩)]⟩) := by
    simp [getCachedQuery, cacheGet, CacheState.atTime, h1, htr]
  have e3 : (getCachedQuery jsTruthy
      ((⟨t1, [(key, ⟨v, some (t0 + ttl)⟩)]⟩ : CacheState JSValue).atTime t2) key v ttl).2.1 =
      true := by
    have hn : ¬ (t2 < t0 + ttl) := Nat.not_lt.mpr h2
    simp [getCachedQuery, cacheGet, cacheSet, CacheState.atTime, hn]
  simp only [e1, e2, e3]
  exact ⟨trivial, trivial, trivial, trivial⟩

/-- C8 witness: the amended theorem at a concrete input. -/
theorem C8_cache_idempotence_witness :
    jsTruthy (JSValue.num 5) = true ∧ 0 < 10 ∧ 5 < 0 + 10 ∧ 0 + 10 ≤ 12 ∧
    (let r1 := getCachedQuery jsTruthy (CacheState.empty JSValue 0) "k" (JSValue.num 5) 10
     let r2 := getCachedQuery jsTruthy (r1.2.2.atTime 5) "k" (JSValue.num 5) 10
     let r3 := getCachedQuery jsTruthy (r2.2.2.atTime 12) "k" (JSValue.num 5) 10
     r1.2.1 = true ∧ r2.2.1 = false ∧ r2.1 = JSValue.num 5 ∧ r3.2.1 = true) :=
  ⟨by decide, by decide, by decide, by decide,
   C8_cache_idempotence "k" (JSValue.num 5) 10 0 5 12 (by decide) (by decide)
     (by decide) (by decide)⟩

/-! ## Claim C9 -/

/-- C9: on any internal error (any failing query, including a totally
failed batch) every per-entity fetcher and the aggregator resolve with the
sentinel `{ data: [], total: 0, offset, limit, hasMore: false }` rather
than rejecting; and on a genuinely empty database the success path returns
the very same sentinel, so a caller cannot tell emptiness from total
failure. -/
theorem C9_error_sentinel_indistinguishable (db : DB) (f : QueryFailures)
    (fd fc : Bool) (status : Option String) (offset limit : Nat)
    (hf : f.any = true) (hq : (fd || fc) = true) :
    activitiesFetch db f offset limit = sentinelResult ActivityEvent offset limit ∧
    quotesFetch db fd fc offset limit status = sentinelResult QuoteView offset limit ∧
    usersFetch db fd fc offset limit = sentinelResult UserView offset limit ∧
    newsletterFetch db fd fc offset limit = sentinelResult SubscriberView offset limit ∧
    formsFetch db fd fc offset limit = sentinelResult FormView offset limit ∧
    activitiesFetch DB.empty QueryFailures.noneF offset limit =
      sentinelResult ActivityEvent offset limit ∧
    quotesFetch DB.empty false false offset limit none =
      sentinelResult QuoteView offset limit ∧
    usersFetch DB.empty false false offset limit =
      sentinelResult UserView offset limit ∧
    newsletterFetch DB.empty false false offset limit =
      sentinelResult SubscriberView offset limit ∧
    formsFetch DB.empty false false offset limit =
      sentinelResult FormView offset limit := by
  refine ⟨activitiesFetch_of_fail db f offset limit hf, ?_, ?_, ?_, ?_, ?_, ?_, ?_, ?_, ?_⟩
  · simp [quotesFetch, hq]
  · simp [usersFetch, hq]
  · simp [newsletterFetch, hq]
  · simp [formsFetch, hq]
  · rw [activitiesFetch_of_not_fail DB.empty QueryFailures.noneF offset limit rfl]
    simp [DB.empty, sortByDesc, List.insertionSort, sentinelResult, activitiesTotal,
      checkoutCount]
  · simp [quotesFetch, quotesWhere, DB.empty, sortByDesc, List.insertionSort, sentinelResult]
  · simp [usersFetch, DB.empty, sortByDesc, List.insertionSort, sentinelResult]
  · simp [newsletterFetch, DB.empty, sortByDesc, List.insertionSort, sentinelResult]
  · simp [formsFetch, DB.empty, sortByDesc, List.insertionSort, sentinelResult]

/-- C9 witness: the theorem at a concrete input. -/
theorem C9_error_sentinel_indistinguishable_witness :
    QueryFailures.any QueryFailures.allF = true ∧ (true || false) = true ∧
    activitiesFetch dbUserQuote QueryFailures.allF 0 20 =
      sentinelResult ActivityEvent 0 20 ∧
    quotesFetch dbUserQuote true false 0 20 none = sentinelResult QuoteView 0 20 ∧
    usersFetch dbUserQuote true false 0 20 = sentinelResult UserView 0 20 ∧
    newsletterFetch dbUserQuote true false 0 20 = sentinelResult SubscriberView 0 20 ∧
    formsFetch dbUserQuote true false 0 20 = sentinelResult FormView 0 20 ∧
    activitiesFetch DB.empty QueryFailures.noneF 0 20 =
      sentinelResult ActivityEvent 0 20 ∧
    quotesFetch DB.empty false false 0 20 none = sentinelResult QuoteView 0 20 ∧
    usersFetch DB.empty false false 0 20 = sentinelResult UserView 0 20 ∧
    newsletterFetch DB.empty false false 0 20 = sentinelResult SubscriberView 0 20 ∧
    formsFetch DB.empty false false 0 20 = sentinelResult FormView 0 20 :=
  ⟨by decide, by decide,
   (C9_error_sentinel_indistinguishable dbUserQuote QueryFailures.allF true false
     none 0 20 (by decide) (by decide)).1,
   (C9_error_sentinel_indistinguishable dbUserQuote QueryFailures.allF true false
     none 0 20 (by decide) (by decide)).2⟩

/-! ## Claim C10 -/

/-- C10: `getCachedQuery` treats any falsy stored value as a cache miss:
whenever `cache.get` returns a stored value that is falsy (null, 0, empty
string, false), the fetcher is invoked again — even though the entry is
present and unexpired — and its result is returned. -/
theorem C10_falsy_is_miss (t ttl : Nat) (store : List (String × CacheEntry JSValue))
    (key : String) (v fv : JSValue) (hfalsy : jsTruthy v = false)
    (hstored : cacheGet (⟨t, store⟩ : CacheState JSValue) key = some v) :
    (getCachedQuery jsTruthy (⟨t, store⟩ : CacheState JSValue) key fv ttl).2.1 = true ∧
    (getCachedQuery jsTruthy (⟨t, store⟩ : CacheState JSValue) key fv ttl).1 = fv := by
  simp [getCachedQuery, hstored, hfalsy]

/-- C10 witness: the theorem at a concrete input (a cached `0`, unexpired,
is refetched). -/
theorem C10_falsy_is_miss_witness :
    jsTruthy (JSValue.num 0) = false ∧
    cacheGet (⟨0, [("k", ⟨JSValue.num 0, some 10⟩)]⟩ : CacheState JSValue) "k" =
      some (JSValue.num 0) ∧
    (getCachedQuery jsTruthy
        (⟨0, [("k", ⟨JSValue.num 0, some 10⟩)]⟩ : CacheState JSValue) "k"
        (JSValue.num 7) 10).2.1 = true :=
  ⟨by decide, by decide,
   (C10_falsy_is_miss 0 10 [("k", ⟨JSValue.num 0, some 10⟩)] "k" (JSValue.num 0)
     (JSValue.num 7) (by decide) (by decide)).1⟩

end Bzionu
